import Mathlib

/-!
Verification development for the cdphttp package: a Chrome-cookie-borrowing
HTTP client.  The definitions below are a shallow embedding of the Go source:

* `timeSince`, `CacheValid` — the time arithmetic of `extractor.go`
  (Go `time.Duration` saturates at `2^63 - 1` nanoseconds);
* `Cookie`, `setCookie`, `setCookies`, `jarGet` — the cookie record of
  `types.go` and the cookie store (`net/http/cookiejar` at its interface:
  insert-or-replace keyed by domain, path and name);
* `refreshCookies` — `(*client).RefreshCookies` of `extractor.go`, with the
  browser's behaviour supplied as an explicit environment `Env` and the
  I/O actions recorded in an event trace;
* `JVal`, `canMarshal`, `executeFull`, `readLoop` — `(*cdpClient).execute`
  of `cdp.go`: request serialization via `mustMarshal` (which panics on a
  `json.Marshal` error) and the id-correlation read loop;
* `UserAgent`, `setUserAgentHeader` — the identity accessor and the
  user-agent header injection of the transport adapter (`RoundTrip`).
-/

namespace CdpHttp

/-- Go `time.Duration` is an `int64` of nanoseconds; `Time.Sub` saturates at
this maximum value.  Times are modelled as `Nat` nanoseconds since Go's zero
instant (year 1), with `0` standing for the zero `time.Time`. -/
def maxDuration : Nat := 2 ^ 63 - 1

/-- Go `time.Since(last)` at wall-clock `now`: the difference, saturated at
`maxDuration` (per the `time.Time.Sub` documentation). -/
def timeSince (now last : Nat) : Nat := min (now - last) maxDuration

/-- The inline cache check `time.Since(c.lastRefresh) < c.cacheTTL` used at
every fallback site inside `RefreshCookies` (extractor.go). -/
def cacheValidInline (now last ttl : Nat) : Bool := timeSince now last < ttl

/-- `(*client).CacheValid` (extractor.go):
`!c.lastRefresh.IsZero() && time.Since(c.lastRefresh) < c.cacheTTL`. -/
def CacheValid (now last ttl : Nat) : Bool :=
  (!(last == 0)) && cacheValidInline now last ttl

/-- The `cookie` struct of `types.go` (a CDP `Network.Cookie`).  The
`expires` field is a `float64` in the source and no claim depends on it, so
it is not modelled; all other fields are carried. -/
structure Cookie where
  name : String
  value : String
  domain : String
  path : String
  size : Int
  httpOnly : Bool
  secure : Bool
  session : Bool
  sourcePort : Int
  partitionKeyOpaque : Bool
deriving DecidableEq, Repr

/-- The key under which the cookie store indexes a record. -/
structure JarKey where
  domain : String
  path : String
  name : String
deriving DecidableEq, Repr

/-- The data the store keeps per record (the fields `RefreshCookies` copies
into the `http.Cookie` it hands to `jar.SetCookies`). -/
structure JarVal where
  value : String
  secure : Bool
  httpOnly : Bool
deriving DecidableEq, Repr

/-- The cookie store: `net/http/cookiejar` at its interface, an
insert-or-replace map keyed by (domain, path, name). -/
abbrev Jar := List (JarKey × JarVal)

def keyOf (c : Cookie) : JarKey := ⟨c.domain, c.path, c.name⟩

def valOf (c : Cookie) : JarVal := ⟨c.value, c.secure, c.httpOnly⟩

/-- One `jar.SetCookies` call for one record, as issued by the loop in
`RefreshCookies`: insert-or-replace under the record's key. -/
def setCookie (jar : Jar) (c : Cookie) : Jar :=
  (keyOf c, valOf c) :: jar.filter (fun e => !(e.1 == keyOf c))

/-- The cookie-update loop of `RefreshCookies` (extractor.go lines 133-148):
one `SetCookies` call per fetched record, in order. -/
def setCookies (jar : Jar) (cs : List Cookie) : Jar := cs.foldl setCookie jar

/-- Lookup in the cookie store by key. -/
def jarGet (jar : Jar) (k : JarKey) : Option JarVal :=
  (jar.find? (fun e => e.1 == k)).map Prod.snd

/-- Errors surfaced by the sync engine: the sentinel `ErrChromeUnavailable`
of `types.go`, or an ordinary wrapped call error (`fmt.Errorf` string). -/
inductive GoErr where
  | chromeUnavailable : GoErr
  | callError : String → GoErr
deriving DecidableEq, Repr

/-- Outcome of one `fetchCookies` call. -/
inductive FetchResult where
  | ok : List Cookie → FetchResult
  | error : GoErr → FetchResult
deriving DecidableEq, Repr

/-- Outcome of one `fetchUserAgent` call. -/
inductive UAResult where
  | ok : String → UAResult
  | error : GoErr → UAResult
deriving DecidableEq, Repr

/-- The browser-side behaviour one `RefreshCookies` invocation can observe:
whether the initial connect attempt would succeed, the outcome of the first
cookie fetch, whether the reconnect would succeed, the outcome of the
retried fetch, and the outcome of the user-agent fetch. -/
structure Env where
  connect1 : Bool
  fetch1 : FetchResult
  connect2 : Bool
  fetch2 : FetchResult
  fetchUA : UAResult
deriving DecidableEq, Repr

/-- The mutable fields of `client` (extractor.go) that `RefreshCookies`
reads or writes.  `connected` stands for `cdpClient != nil`;
`lastRefresh = 0` is the zero `time.Time`. -/
structure ClientState where
  connected : Bool
  jar : Jar
  userAgent : String
  lastRefresh : Nat
  cacheTTL : Nat
deriving DecidableEq, Repr

/-- Observable I/O actions of one `RefreshCookies` invocation. -/
inductive Ev where
  | connectAttempt : Ev
  | disconnect : Ev
  | fetchAttempt : Ev
  | uaFetch : Ev
deriving DecidableEq, Repr

/-- `(*client).ensureConnection`: reuse the live client if present,
otherwise attempt one connect (recorded as a `connectAttempt` event);
returns whether a client is now available. -/
def ensureConnection (connected connectOK : Bool) : Bool × List Ev :=
  if connected then (true, []) else (connectOK, [Ev.connectAttempt])

/-- The user-agent step of `RefreshCookies` (extractor.go lines 118-130):
fetch the identity only when none is recorded (`c.userAgent != ""`), and
silently drop a fetch error. -/
def updateUA (st : ClientState) (env : Env) : String × List Ev :=
  if st.userAgent ≠ "" then (st.userAgent, [])
  else
    match env.fetchUA with
    | UAResult.ok ua => (ua, [Ev.uaFetch])
    | UAResult.error _ => (st.userAgent, [Ev.uaFetch])

/-- Result of one `RefreshCookies` invocation: the returned error (`none`
is Go `nil`), the client state afterwards, and the event trace. -/
structure RefreshResult where
  err : Option GoErr
  state : ClientState
  trace : List Ev
deriving DecidableEq, Repr

/-- The repeated fallback pattern of `RefreshCookies`: if the cache is
still within TTL return `nil`, else return the given error.  On every such
path `cdpClient` is `nil` (the connect failed or `disconnect` ran). -/
def cacheFallback (st : ClientState) (now : Nat) (e : GoErr) (evs : List Ev) :
    RefreshResult :=
  if cacheValidInline now st.lastRefresh st.cacheTTL then
    { err := none, state := { st with connected := false }, trace := evs }
  else
    { err := some e, state := { st with connected := false }, trace := evs }

/-- The success tail of `RefreshCookies` (extractor.go lines 118-154):
record the identity if absent, insert every fetched record into the store,
stamp `lastRefresh := now`, return `nil`. -/
def finishRefresh (st : ClientState) (env : Env) (now : Nat)
    (cookies : List Cookie) (evs : List Ev) : RefreshResult :=
  let ua := updateUA st env
  { err := none
    state := { st with
      connected := true
      userAgent := ua.1
      jar := setCookies st.jar cookies
      lastRefresh := now }
    trace := evs ++ ua.2 }

/-- `(*client).RefreshCookies` (extractor.go lines 76-155), with the
browser's behaviour supplied by `env` and the wall clock by `now`:
ensure a connection (falling back to the cache if none), fetch cookies,
on failure disconnect and reconnect-retry exactly once, on repeated
failure fall back to the cache — note the retry-failure site returns the
raw fetch error `err`, not `ErrChromeUnavailable` — and on success run
the user-agent and store updates. -/
def refreshCookies (st : ClientState) (env : Env) (now : Nat) : RefreshResult :=
  let c1 := ensureConnection st.connected env.connect1
  if c1.1 then
    match env.fetch1 with
    | FetchResult.ok cookies =>
        finishRefresh st env now cookies (c1.2 ++ [Ev.fetchAttempt])
    | FetchResult.error _ =>
        let evA := c1.2 ++ [Ev.fetchAttempt, Ev.disconnect]
        let c2 := ensureConnection false env.connect2
        if c2.1 then
          match env.fetch2 with
          | FetchResult.ok cookies =>
              finishRefresh st env now cookies (evA ++ c2.2 ++ [Ev.fetchAttempt])
          | FetchResult.error e2 =>
              cacheFallback st now e2 (evA ++ c2.2 ++ [Ev.fetchAttempt, Ev.disconnect])
        else
          cacheFallback st now GoErr.chromeUnavailable (evA ++ c2.2)
  else
    cacheFallback st now GoErr.chromeUnavailable c1.2

/-- Which cookie list (if any) a `RefreshCookies` invocation ends up
installing, read off the control flow of `refreshCookies`: the first
fetch's list, or the retried fetch's list, or none when every browser
interaction fails. -/
def fetchOutcome (st : ClientState) (env : Env) : Option (List Cookie) :=
  if st.connected || env.connect1 then
    match env.fetch1 with
    | FetchResult.ok cs => some cs
    | FetchResult.error _ =>
        if env.connect2 then
          match env.fetch2 with
          | FetchResult.ok cs => some cs
          | FetchResult.error _ => none
        else none
  else none

mutual
/-- A Go value handed to `json.Marshal` (the `any` parameters of
`execute` in cdp.go), mutually with array and object spines.
`unsupported` stands for the values `json.Marshal` rejects with an error
(channels, functions, complex numbers). -/
inductive JVal where
  | null : JVal
  | bool : Bool → JVal
  | num : Int → JVal
  | str : String → JVal
  | arr : JArr → JVal
  | obj : JObj → JVal
  | unsupported : JVal
inductive JArr where
  | nil : JArr
  | cons : JVal → JArr → JArr
inductive JObj where
  | nil : JObj
  | cons : String → JVal → JObj → JObj
end

mutual
/-- Whether `json.Marshal` succeeds on a value: it fails exactly when an
`unsupported` value occurs somewhere inside. -/
def canMarshal : JVal → Bool
  | JVal.null => true
  | JVal.bool _ => true
  | JVal.num _ => true
  | JVal.str _ => true
  | JVal.arr xs => canMarshalArr xs
  | JVal.obj fs => canMarshalObj fs
  | JVal.unsupported => false
def canMarshalArr : JArr → Bool
  | JArr.nil => true
  | JArr.cons x xs => canMarshal x && canMarshalArr xs
def canMarshalObj : JObj → Bool
  | JObj.nil => true
  | JObj.cons _ v fs => canMarshal v && canMarshalObj fs
end

/-- The request frame `execute` builds (cdp.go lines 56-62):
`{"id": id, "method": method}` plus `params` when non-nil. -/
def buildRequest (id : Int) (method : String) (params : Option JVal) : JVal :=
  match params with
  | none =>
      JVal.obj (JObj.cons "id" (JVal.num id)
        (JObj.cons "method" (JVal.str method) JObj.nil))
  | some p =>
      JVal.obj (JObj.cons "id" (JVal.num id)
        (JObj.cons "method" (JVal.str method)
          (JObj.cons "params" p JObj.nil)))

/-- One inbound event on the websocket, as `execute`'s read loop sees it:
a transport read error, data `json.Unmarshal` rejects, or a parsed frame
`{id, error?, result}`. -/
inductive InMsg where
  | readError : String → InMsg
  | malformed : String → InMsg
  | frame : Int → Option (Int × String) → String → InMsg
deriving DecidableEq, Repr

/-- The possible outcomes of one `execute` call. -/
inductive CallResult where
  | ok : String → CallResult
  | errSend : String → CallResult
  | errRead : String → CallResult
  | errParse : String → CallResult
  | errRemote : Int → String → CallResult
deriving DecidableEq, Repr

/-- The read loop of `execute` (cdp.go lines 70-98): read, parse, skip any
frame whose id differs from the call's id, fail on a remote error
`{code, message}`, return the result payload on a match.  An exhausted
inbound stream stands for the context deadline expiring, which surfaces
as a read error. -/
def readLoop (id : Int) : List InMsg → CallResult
  | [] => CallResult.errRead "context deadline exceeded"
  | InMsg.readError m :: _ => CallResult.errRead m
  | InMsg.malformed m :: _ => CallResult.errParse m
  | InMsg.frame i e r :: rest =>
      if i ≠ id then readLoop id rest
      else
        match e with
        | some (c, m) => CallResult.errRemote c m
        | none => CallResult.ok r

/-- An `execute` invocation either panics (in `mustMarshal`) or produces a
`CallResult`. -/
inductive ExecOutcome where
  | panicked : ExecOutcome
  | res : CallResult → ExecOutcome
deriving DecidableEq, Repr

/-- `(*cdpClient).execute` (cdp.go lines 50-99): allocate the next id,
serialize the request with `mustMarshal` — which panics when
`json.Marshal` fails (cdp.go lines 157-163) — write it (`writeOK` tells
whether the write succeeds), then run the correlation read loop over the
inbound stream. -/
def executeFull (nextID : Int) (method : String) (params : Option JVal)
    (writeOK : Bool) (msgs : List InMsg) : ExecOutcome :=
  let id := nextID + 1
  if !(canMarshal (buildRequest id method params)) then ExecOutcome.panicked
  else if !writeOK then ExecOutcome.res (CallResult.errSend "failed to send request")
  else ExecOutcome.res (readLoop id msgs)

/-- `(*client).UserAgent` (extractor.go). -/
def UserAgent (st : ClientState) : String := st.userAgent

/-- The header-injection step of `(*roundTripper).RoundTrip`: set the
`User-Agent` header only when the recorded identity is non-empty. -/
def setUserAgentHeader (ua : String) (headers : List (String × String)) :
    List (String × String) :=
  if ua ≠ "" then
    ("User-Agent", ua) :: headers.filter (fun h => !(h.1 == "User-Agent"))
  else headers

/-! ### Cookie store lemmas -/

theorem find?_filter_ne (jar : Jar) (k k' : JarKey) (h : k ≠ k') :
    (jar.filter (fun e => !(e.1 == k'))).find? (fun e => e.1 == k)
      = jar.find? (fun e => e.1 == k) := by
  induction jar with
  | nil => rfl
  | cons e rest ih =>
      by_cases he : e.1 = k'
      · have hk : (e.1 == k) = false := by
          rw [beq_eq_false_iff_ne, he]
          exact fun hh => h hh.symm
        rw [List.filter_cons_of_neg (by simp [he]), ih,
          List.find?_cons_of_neg _ (by simp [hk])]
      · rw [List.filter_cons_of_pos (by simp [he])]
        by_cases hek : e.1 = k
        · rw [List.find?_cons_of_pos _ (by simp [hek]),
            List.find?_cons_of_pos _ (by simp [hek])]
        · rw [List.find?_cons_of_neg _ (by simp [hek]),
            List.find?_cons_of_neg _ (by simp [hek]), ih]

theorem jarGet_setCookie_self (jar : Jar) (c : Cookie) :
    jarGet (setCookie jar c) (keyOf c) = some (valOf c) := by
  simp [jarGet, setCookie]

theorem jarGet_setCookie_ne (jar : Jar) (c : Cookie) (k : JarKey)
    (h : k ≠ keyOf c) :
    jarGet (setCookie jar c) k = jarGet jar k := by
  have hk : (keyOf c == k) = false := by
    simp
    intro hkk
    exact h hkk.symm
  simp [jarGet, setCookie, hk, find?_filter_ne jar k (keyOf c) h]

theorem jarGet_setCookies_not_mem (cs : List Cookie) (jar : Jar) (k : JarKey)
    (h : ∀ c ∈ cs, k ≠ keyOf c) :
    jarGet (setCookies jar cs) k = jarGet jar k := by
  induction cs generalizing jar with
  | nil => rfl
  | cons c rest ih =>
      have h1 : k ≠ keyOf c := h c (List.mem_cons_self c rest)
      have h2 : ∀ c' ∈ rest, k ≠ keyOf c' := fun c' hc' => h c' (List.mem_cons_of_mem c hc')
      calc jarGet (setCookies (setCookie jar c) rest) k
          = jarGet (setCookie jar c) k := ih (setCookie jar c) h2
        _ = jarGet jar k := jarGet_setCookie_ne jar c k h1

theorem jarGet_setCookies_mem (cs : List Cookie) (jar : Jar) (c : Cookie)
    (hnd : (cs.map keyOf).Nodup) (hc : c ∈ cs) :
    jarGet (setCookies jar cs) (keyOf c) = some (valOf c) := by
  induction cs generalizing jar with
  | nil => cases hc
  | cons c' rest ih =>
      rcases List.mem_cons.mp hc with heq | hmem
      · subst heq
        have hnotin : keyOf c ∉ rest.map keyOf := (List.nodup_cons.mp hnd).1
        have h2 : ∀ c'' ∈ rest, keyOf c ≠ keyOf c'' := by
          intro c'' hc'' heq'
          exact hnotin (heq' ▸ List.mem_map_of_mem keyOf hc'')
        calc jarGet (setCookies (setCookie jar c) rest) (keyOf c)
            = jarGet (setCookie jar c) (keyOf c) :=
              jarGet_setCookies_not_mem rest (setCookie jar c) (keyOf c) h2
          _ = some (valOf c) := jarGet_setCookie_self jar c
      · exact ih (setCookie jar c') (List.nodup_cons.mp hnd).2 hmem

/-! ### Refresh path characterization -/

/-- On every path on which some cookie fetch succeeds, `RefreshCookies`
returns `nil` and the new state has the fetched records installed, the
user-agent step applied, and `lastRefresh` stamped to `now`. -/
theorem refresh_success (st : ClientState) (env : Env) (now : Nat)
    (cs : List Cookie) (h : fetchOutcome st env = some cs) :
    (refreshCookies st env now).err = none ∧
    (refreshCookies st env now).state =
      { st with
        connected := true
        userAgent := (updateUA st env).1
        jar := setCookies st.jar cs
        lastRefresh := now } := by
  cases hcon : st.connected <;>
    cases hc1 : env.connect1 <;>
    cases hf1 : env.fetch1 <;>
    cases hc2 : env.connect2 <;>
    cases hf2 : env.fetch2 <;>
    simp_all [fetchOutcome, refreshCookies, ensureConnection, finishRefresh]

/-- On every path on which no cookie fetch succeeds, `RefreshCookies`
leaves the store, the identity and the refresh timestamp unchanged and
tears the connection down; it returns `nil` when the cache is within TTL. -/
theorem refresh_fail (st : ClientState) (env : Env) (now : Nat)
    (h : fetchOutcome st env = none) :
    (refreshCookies st env now).state = { st with connected := false } ∧
    ((cacheValidInline now st.lastRefresh st.cacheTTL = true →
        (refreshCookies st env now).err = none) ∧
     (cacheValidInline now st.lastRefresh st.cacheTTL = false →
        (refreshCookies st env now).err ≠ none)) := by
  cases hcon : st.connected <;>
    cases hc1 : env.connect1 <;>
    cases hf1 : env.fetch1 <;>
    cases hc2 : env.connect2 <;>
    cases hf2 : env.fetch2 <;>
    simp_all [fetchOutcome, refreshCookies, ensureConnection, cacheFallback] <;>
    cases hcv : cacheValidInline now st.lastRefresh st.cacheTTL <;>
    simp_all

/-- The user-agent step emits at most one `uaFetch` event and nothing
else. -/
theorem updateUA_trace (st : ClientState) (env : Env) :
    (updateUA st env).2 = [] ∨ (updateUA st env).2 = [Ev.uaFetch] := by
  cases hua : env.fetchUA <;> by_cases h : st.userAgent = "" <;>
    simp [updateUA, h, hua]

/-! ### Claim theorems -/

/-- C3: the claim says a failure to serialize the outbound request frame is
reported as an error value and never panics.  The code contradicts this:
`execute` serializes with `mustMarshal`, which panics on a `json.Marshal`
error.  Evaluated at a request whose params hold a value `json.Marshal`
rejects, `execute` panics instead of returning an error. -/
theorem execute_panics_on_unmarshalable :
    executeFull 0 "Storage.getCookies" (some JVal.unsupported) true []
      = ExecOutcome.panicked := rfl

/-- C4: if a refresh succeeded at time `T = st.lastRefresh` and every
browser interaction of this invocation fails (`fetchOutcome = none`: the
connect fails, or the fetch and the one reconnect-and-retry fail) at a
wall-clock `now` strictly before `T + ttl`, then `RefreshCookies` returns
`nil` and the cookie store and the identity string are unchanged (as is
the refresh timestamp). -/
theorem refresh_within_ttl_uses_cache (st : ClientState) (env : Env) (now : Nat)
    (hle : st.lastRefresh ≤ now)
    (hlt : now < st.lastRefresh + st.cacheTTL)
    (hfail : fetchOutcome st env = none) :
    (refreshCookies st env now).err = none ∧
    (refreshCookies st env now).state.jar = st.jar ∧
    (refreshCookies st env now).state.userAgent = st.userAgent ∧
    (refreshCookies st env now).state.lastRefresh = st.lastRefresh := by
  have hcv : cacheValidInline now st.lastRefresh st.cacheTTL = true := by
    have hsub : now - st.lastRefresh < st.cacheTTL := by omega
    have : timeSince now st.lastRefresh < st.cacheTTL := by
      have := Nat.min_le_left (now - st.lastRefresh) maxDuration
      unfold timeSince
      omega
    simpa [cacheValidInline] using this
  obtain ⟨hstate, hok, _⟩ := refresh_fail st env now hfail
  refine ⟨hok hcv, ?_, ?_, ?_⟩ <;> rw [hstate]

/-- Witness for C4: at `lastRefresh = 50`, `ttl = 100`, `now = 120`, with
the browser completely unreachable, the refresh succeeds and changes
nothing. -/
theorem refresh_within_ttl_uses_cache_witness :
    (refreshCookies
      { connected := false, jar := [(⟨"d", "/", "n"⟩, ⟨"v", false, false⟩)],
        userAgent := "UA", lastRefresh := 50, cacheTTL := 100 }
      { connect1 := false, fetch1 := FetchResult.error (GoErr.callError "x"),
        connect2 := false, fetch2 := FetchResult.error (GoErr.callError "x"),
        fetchUA := UAResult.error (GoErr.callError "x") } 120).err = none ∧
    (refreshCookies
      { connected := false, jar := [(⟨"d", "/", "n"⟩, ⟨"v", false, false⟩)],
        userAgent := "UA", lastRefresh := 50, cacheTTL := 100 }
      { connect1 := false, fetch1 := FetchResult.error (GoErr.callError "x"),
        connect2 := false, fetch2 := FetchResult.error (GoErr.callError "x"),
        fetchUA := UAResult.error (GoErr.callError "x") } 120).state.jar
      = [(⟨"d", "/", "n"⟩, ⟨"v", false, false⟩)] := by
  have h := refresh_within_ttl_uses_cache
    { connected := false, jar := [(⟨"d", "/", "n"⟩, ⟨"v", false, false⟩)],
      userAgent := "UA", lastRefresh := 50, cacheTTL := 100 }
    { connect1 := false, fetch1 := FetchResult.error (GoErr.callError "x"),
      connect2 := false, fetch2 := FetchResult.error (GoErr.callError "x"),
      fetchUA := UAResult.error (GoErr.callError "x") } 120
    (by decide) (by decide) (by decide)
  exact ⟨h.1, h.2.1⟩

/-- C5: with `lastRefresh` the zero value, `CacheValid` returns false (the
explicit `IsZero` guard), and a `RefreshCookies` invocation in which the
browser is unreachable returns `ErrChromeUnavailable`: Go's `time.Since`
of the zero time saturates at the maximum `time.Duration`
(`maxDuration ≤ now` holds for any real wall clock, and every
representable TTL satisfies `ttl ≤ maxDuration`), so the inline cache
check is false as well. -/
theorem never_refreshed_returns_unavailable (st : ClientState) (env : Env)
    (now ttl : Nat) :
    CacheValid now 0 ttl = false ∧
    (st.lastRefresh = 0 → maxDuration ≤ now → st.cacheTTL ≤ maxDuration →
      st.connected = false → env.connect1 = false →
      (refreshCookies st env now).err = some GoErr.chromeUnavailable) := by
  constructor
  · simp [CacheValid]
  · intro h0 hnow httl hcon hc1
    have hcv : cacheValidInline now st.lastRefresh st.cacheTTL = false := by
      have hmin : min now maxDuration = maxDuration := Nat.min_eq_right hnow
      simp only [cacheValidInline, h0, timeSince, Nat.sub_zero,
        decide_eq_false_iff_not, Nat.not_lt]
      rw [hmin]
      exact httl
    simp [refreshCookies, ensureConnection, cacheFallback, hcon, hc1, hcv]

/-- Witness for C5: never refreshed, browser down, realistic clock
(`now = 2^63`) and a 5-nanosecond TTL: the refresh fails with the
sentinel error. -/
theorem never_refreshed_returns_unavailable_witness :
    (refreshCookies
      { connected := false, jar := [], userAgent := "", lastRefresh := 0,
        cacheTTL := 5 }
      { connect1 := false, fetch1 := FetchResult.ok [],
        connect2 := false, fetch2 := FetchResult.ok [],
        fetchUA := UAResult.ok "" } (2 ^ 63)).err
      = some GoErr.chromeUnavailable :=
  (never_refreshed_returns_unavailable
    { connected := false, jar := [], userAgent := "", lastRefresh := 0,
      cacheTTL := 5 }
    { connect1 := false, fetch1 := FetchResult.ok [],
      connect2 := false, fetch2 := FetchResult.ok [],
      fetchUA := UAResult.ok "" } (2 ^ 63) 5).2
    rfl (by decide) (by decide) rfl rfl

/-- C1 counterexample: on the path where the first cookie fetch fails, the
single reconnect succeeds, and the retried fetch fails again, with the
cache expired, `RefreshCookies` returns the raw fetch error — not
`ErrChromeUnavailable` as the claim states (extractor.go line 114 returns
`err` instead of the sentinel). -/
theorem refresh_retryfail_raw_error_cex :
    (refreshCookies
      { connected := true, jar := [], userAgent := "", lastRefresh := 0,
        cacheTTL := 5 }
      { connect1 := true,
        fetch1 := FetchResult.error (GoErr.callError "failed to get cookies: read failed"),
        connect2 := true,
        fetch2 := FetchResult.error (GoErr.callError "failed to get cookies: read failed again"),
        fetchUA := UAResult.error (GoErr.callError "ua") } 100).err
      = some (GoErr.callError "failed to get cookies: read failed again") ∧
    GoErr.callError "failed to get cookies: read failed again"
      ≠ GoErr.chromeUnavailable := by
  constructor
  · decide
  · decide

/-- C1 amended: every error `RefreshCookies` returns is either the
sentinel `ErrChromeUnavailable` (connect failure or failed reconnect,
cache expired) or the raw error of the retried cookie fetch; and on the
path where the fetch fails, the reconnect succeeds, and the retry fails
with the cache expired, it is exactly the raw retried-fetch error. -/
theorem refresh_error_taxonomy (st : ClientState) (env : Env) (now : Nat) :
    (∀ e, (refreshCookies st env now).err = some e →
      e = GoErr.chromeUnavailable ∨ env.fetch2 = FetchResult.error e) ∧
    (∀ e1 e2, (st.connected || env.connect1) = true →
      env.fetch1 = FetchResult.error e1 →
      env.connect2 = true →
      env.fetch2 = FetchResult.error e2 →
      cacheValidInline now st.lastRefresh st.cacheTTL = false →
      (refreshCookies st env now).err = some e2) := by
  cases hcon : st.connected <;>
    cases hc1 : env.connect1 <;>
    cases hf1 : env.fetch1 <;>
    cases hc2 : env.connect2 <;>
    cases hf2 : env.fetch2 <;>
    cases hcv : cacheValidInline now st.lastRefresh st.cacheTTL <;>
    simp_all [refreshCookies, ensureConnection, cacheFallback, finishRefresh]

/-- Witness for C1 amended: the double-fetch-failure path with an expired
cache returns the raw retried-fetch error. -/
theorem refresh_error_taxonomy_witness :
    (refreshCookies
      { connected := true, jar := [], userAgent := "", lastRefresh := 0,
        cacheTTL := 5 }
      { connect1 := true, fetch1 := FetchResult.error (GoErr.callError "a"),
        connect2 := true, fetch2 := FetchResult.error (GoErr.callError "b"),
        fetchUA := UAResult.ok "" } 100).err
      = some (GoErr.callError "b") :=
  (refresh_error_taxonomy
    { connected := true, jar := [], userAgent := "", lastRefresh := 0,
      cacheTTL := 5 }
    { connect1 := true, fetch1 := FetchResult.error (GoErr.callError "a"),
      connect2 := true, fetch2 := FetchResult.error (GoErr.callError "b"),
      fetchUA := UAResult.ok "" } 100).2
    (GoErr.callError "a") (GoErr.callError "b") rfl rfl rfl rfl (by decide)

/-- C2 counterexample: a record present before a successful refresh whose
key is not among the fetched records is still in the store afterwards —
the fetched records are merged per record into the jar
(`jar.SetCookies`), they do not supersede the previous contents
wholesale as the claim states. -/
theorem refresh_merge_keeps_stale_record_cex :
    (refreshCookies
      { connected := true,
        jar := [(⟨"old.example", "/", "sid"⟩, ⟨"v0", false, false⟩)],
        userAgent := "ua0", lastRefresh := 0, cacheTTL := 5 }
      { connect1 := true,
        fetch1 := FetchResult.ok
          [{ name := "y", value := "b", domain := "httpbin.org", path := "/",
             size := 3, httpOnly := false, secure := true, session := false,
             sourcePort := 443, partitionKeyOpaque := false }],
        connect2 := true, fetch2 := FetchResult.ok [],
        fetchUA := UAResult.ok "UA1" } 100).err = none ∧
    (⟨"old.example", "/", "sid"⟩ : JarKey)
      ≠ keyOf { name := "y", value := "b", domain := "httpbin.org", path := "/",
                size := 3, httpOnly := false, secure := true, session := false,
                sourcePort := 443, partitionKeyOpaque := false } ∧
    jarGet
      (refreshCookies
        { connected := true,
          jar := [(⟨"old.example", "/", "sid"⟩, ⟨"v0", false, false⟩)],
          userAgent := "ua0", lastRefresh := 0, cacheTTL := 5 }
        { connect1 := true,
          fetch1 := FetchResult.ok
            [{ name := "y", value := "b", domain := "httpbin.org", path := "/",
               size := 3, httpOnly := false, secure := true, session := false,
               sourcePort := 443, partitionKeyOpaque := false }],
          connect2 := true, fetch2 := FetchResult.ok [],
          fetchUA := UAResult.ok "UA1" } 100).state.jar
      ⟨"old.example", "/", "sid"⟩ = some ⟨"v0", false, false⟩ := by
  refine ⟨by decide, by decide, by decide⟩

/-- C2 amended: a successful refresh inserts each fetched record into the
store under its (domain, path, name) key (insert-or-replace), and every
record whose key is not among the fetched records keeps its previous
store entry — per-record merge, not wholesale replacement. -/
theorem refresh_merges_fetched_records (st : ClientState) (env : Env)
    (now : Nat) (cs : List Cookie) (k : JarKey)
    (hs : fetchOutcome st env = some cs)
    (hk : ∀ c ∈ cs, k ≠ keyOf c) :
    (refreshCookies st env now).err = none ∧
    (refreshCookies st env now).state.jar = setCookies st.jar cs ∧
    jarGet (refreshCookies st env now).state.jar k = jarGet st.jar k := by
  obtain ⟨herr, hstate⟩ := refresh_success st env now cs hs
  refine ⟨herr, by rw [hstate], ?_⟩
  rw [hstate]
  exact jarGet_setCookies_not_mem cs st.jar k hk

/-- Witness for C2 amended: one fetched record, one unrelated prior
record; the prior record survives the refresh. -/
theorem refresh_merges_fetched_records_witness :
    (refreshCookies
      { connected := true,
        jar := [(⟨"old.example", "/", "sid"⟩, ⟨"v0", false, false⟩)],
        userAgent := "ua0", lastRefresh := 0, cacheTTL := 5 }
      { connect1 := true,
        fetch1 := FetchResult.ok
          [{ name := "y", value := "b", domain := "httpbin.org", path := "/",
             size := 3, httpOnly := false, secure := true, session := false,
             sourcePort := 443, partitionKeyOpaque := false }],
        connect2 := true, fetch2 := FetchResult.ok [],
        fetchUA := UAResult.ok "UA1" } 100).err = none ∧
    jarGet
      (refreshCookies
        { connected := true,
          jar := [(⟨"old.example", "/", "sid"⟩, ⟨"v0", false, false⟩)],
          userAgent := "ua0", lastRefresh := 0, cacheTTL := 5 }
        { connect1 := true,
          fetch1 := FetchResult.ok
            [{ name := "y", value := "b", domain := "httpbin.org", path := "/",
               size := 3, httpOnly := false, secure := true, session := false,
               sourcePort := 443, partitionKeyOpaque := false }],
          connect2 := true, fetch2 := FetchResult.ok [],
          fetchUA := UAResult.ok "UA1" } 100).state.jar
      ⟨"old.example", "/", "sid"⟩
      = jarGet [(⟨"old.example", "/", "sid"⟩, ⟨"v0", false, false⟩)]
          ⟨"old.example", "/", "sid"⟩ := by
  have h := refresh_merges_fetched_records
    { connected := true,
      jar := [(⟨"old.example", "/", "sid"⟩, ⟨"v0", false, false⟩)],
      userAgent := "ua0", lastRefresh := 0, cacheTTL := 5 }
    { connect1 := true,
      fetch1 := FetchResult.ok
        [{ name := "y", value := "b", domain := "httpbin.org", path := "/",
           size := 3, httpOnly := false, secure := true, session := false,
           sourcePort := 443, partitionKeyOpaque := false }],
      connect2 := true, fetch2 := FetchResult.ok [],
      fetchUA := UAResult.ok "UA1" } 100
    [{ name := "y", value := "b", domain := "httpbin.org", path := "/",
       size := 3, httpOnly := false, secure := true, session := false,
       sourcePort := 443, partitionKeyOpaque := false }]
    ⟨"old.example", "/", "sid"⟩ (by decide) (by decide)
  exact ⟨h.1, h.2.2⟩

/-- C6: after a successful refresh, every fetched cookie record appears in
the store under its (domain, path, name) key with the fetched value,
secure flag and http-only flag.  The fetched records are assumed to have
pairwise distinct keys, as a browser cookie set (which is itself keyed by
domain, path and name) always does. -/
theorem refresh_installs_fetched_records (st : ClientState) (env : Env)
    (now : Nat) (cs : List Cookie) (c : Cookie)
    (hs : fetchOutcome st env = some cs)
    (hnd : (cs.map keyOf).Nodup)
    (hc : c ∈ cs) :
    jarGet (refreshCookies st env now).state.jar (keyOf c) = some (valOf c) := by
  obtain ⟨_, hstate⟩ := refresh_success st env now cs hs
  rw [hstate]
  exact jarGet_setCookies_mem cs st.jar c hnd hc

/-- Witness for C6: the fetched record `y=b` for `httpbin.org` is found in
the store with its value and flags after the refresh. -/
theorem refresh_installs_fetched_records_witness :
    jarGet
      (refreshCookies
        { connected := true, jar := [], userAgent := "", lastRefresh := 0,
          cacheTTL := 5 }
        { connect1 := true,
          fetch1 := FetchResult.ok
            [{ name := "y", value := "b", domain := "httpbin.org", path := "/",
               size := 3, httpOnly := false, secure := true, session := false,
               sourcePort := 443, partitionKeyOpaque := false }],
          connect2 := true, fetch2 := FetchResult.ok [],
          fetchUA := UAResult.ok "UA1" } 100).state.jar
      (keyOf { name := "y", value := "b", domain := "httpbin.org", path := "/",
               size := 3, httpOnly := false, secure := true, session := false,
               sourcePort := 443, partitionKeyOpaque := false })
      = some (valOf { name := "y", value := "b", domain := "httpbin.org",
                      path := "/", size := 3, httpOnly := false, secure := true,
                      session := false, sourcePort := 443,
                      partitionKeyOpaque := false }) :=
  refresh_installs_fetched_records
    { connected := true, jar := [], userAgent := "", lastRefresh := 0,
      cacheTTL := 5 }
    { connect1 := true,
      fetch1 := FetchResult.ok
        [{ name := "y", value := "b", domain := "httpbin.org", path := "/",
           size := 3, httpOnly := false, secure := true, session := false,
           sourcePort := 443, partitionKeyOpaque := false }],
      connect2 := true, fetch2 := FetchResult.ok [],
      fetchUA := UAResult.ok "UA1" } 100
    [{ name := "y", value := "b", domain := "httpbin.org", path := "/",
       size := 3, httpOnly := false, secure := true, session := false,
       sourcePort := 443, partitionKeyOpaque := false }]
    { name := "y", value := "b", domain := "httpbin.org", path := "/",
      size := 3, httpOnly := false, secure := true, session := false,
      sourcePort := 443, partitionKeyOpaque := false }
    (by decide) (by decide) (by decide)

/-- C7 counterexample: a first refresh whose identity fetch succeeds but
returns the empty string records nothing (the code's guard is
`c.userAgent != ""`), so a later refresh fetches the identity again and
records a different value — contradicting the claim that no refresh after
the first successful identity fetch changes the recorded identity. -/
theorem identity_refetched_after_empty_success_cex :
    (refreshCookies
      { connected := true, jar := [], userAgent := "", lastRefresh := 0,
        cacheTTL := 1000 }
      { connect1 := true, fetch1 := FetchResult.ok [], connect2 := true,
        fetch2 := FetchResult.ok [], fetchUA := UAResult.ok "" } 10).err
      = none ∧
    (refreshCookies
      { connected := true, jar := [], userAgent := "", lastRefresh := 0,
        cacheTTL := 1000 }
      { connect1 := true, fetch1 := FetchResult.ok [], connect2 := true,
        fetch2 := FetchResult.ok [], fetchUA := UAResult.ok "" } 10).state.userAgent
      = "" ∧
    (refreshCookies
      (refreshCookies
        { connected := true, jar := [], userAgent := "", lastRefresh := 0,
          cacheTTL := 1000 }
        { connect1 := true, fetch1 := FetchResult.ok [], connect2 := true,
          fetch2 := FetchResult.ok [], fetchUA := UAResult.ok "" } 10).state
      { connect1 := true, fetch1 := FetchResult.ok [], connect2 := true,
        fetch2 := FetchResult.ok [], fetchUA := UAResult.ok "UA2" } 20).state.userAgent
      = "UA2" := by
  refine ⟨by decide, by decide, by decide⟩

/-- C7 amended: once a non-empty identity string has been recorded, no
later refresh changes it — the identity fetch is not even attempted
(no `uaFetch` event in the trace) — whatever identity the browser would
now report.  A successful identity fetch that returns the empty string,
however, records nothing and a later refresh fetches again. -/
theorem identity_stable_once_nonempty (st : ClientState) (env : Env)
    (now : Nat) (h : st.userAgent ≠ "") :
    (refreshCookies st env now).state.userAgent = st.userAgent ∧
    Ev.uaFetch ∉ (refreshCookies st env now).trace := by
  cases hcon : st.connected <;>
    cases hc1 : env.connect1 <;>
    cases hf1 : env.fetch1 <;>
    cases hc2 : env.connect2 <;>
    cases hf2 : env.fetch2 <;>
    cases hcv : cacheValidInline now st.lastRefresh st.cacheTTL <;>
    simp_all [refreshCookies, ensureConnection, cacheFallback, finishRefresh,
      updateUA]

/-- Witness for C7 amended: with identity `"UA0"` recorded, a refresh in
which the browser would report `"UA9"` leaves `"UA0"` in place. -/
theorem identity_stable_once_nonempty_witness :
    (refreshCookies
      { connected := true, jar := [], userAgent := "UA0", lastRefresh := 0,
        cacheTTL := 5 }
      { connect1 := true, fetch1 := FetchResult.ok [], connect2 := true,
        fetch2 := FetchResult.ok [], fetchUA := UAResult.ok "UA9" } 100).state.userAgent
      = "UA0" :=
  (identity_stable_once_nonempty
    { connected := true, jar := [], userAgent := "UA0", lastRefresh := 0,
      cacheTTL := 5 }
    { connect1 := true, fetch1 := FetchResult.ok [], connect2 := true,
      fetch2 := FetchResult.ok [], fetchUA := UAResult.ok "UA9" } 100
    (by decide)).1

/-- C8: every `RefreshCookies` invocation performs at most two cookie-fetch
attempts, at most two connect attempts, and at most one reconnect (a
connect attempt at or after the first disconnect); moreover, whenever the
first fetch fails it disconnects and reconnects exactly once (the suffix
of the trace from the first disconnect holds exactly one connect
attempt), and if the retried fetch also fails the whole trace is exactly
the initial connect (when one was needed), two fetch attempts and the one
reconnect between them, ending at the second disconnect — no further
connect or fetch is attempted within the invocation. -/
theorem refresh_attempt_bounds (st : ClientState) (env : Env) (now : Nat) :
    ((refreshCookies st env now).trace.count Ev.fetchAttempt ≤ 2 ∧
     (refreshCookies st env now).trace.count Ev.connectAttempt ≤ 2 ∧
     ((refreshCookies st env now).trace.dropWhile
        (fun e => !(e == Ev.disconnect))).count Ev.connectAttempt ≤ 1) ∧
    (∀ e1, (st.connected || env.connect1) = true →
      env.fetch1 = FetchResult.error e1 →
      ((refreshCookies st env now).trace.dropWhile
          (fun e => !(e == Ev.disconnect))).count Ev.connectAttempt = 1) ∧
    (∀ e1 e2, (st.connected || env.connect1) = true →
      env.fetch1 = FetchResult.error e1 →
      env.connect2 = true →
      env.fetch2 = FetchResult.error e2 →
      (refreshCookies st env now).trace
        = (if st.connected then [] else [Ev.connectAttempt])
            ++ [Ev.fetchAttempt, Ev.disconnect, Ev.connectAttempt,
                Ev.fetchAttempt, Ev.disconnect]) := by
  rcases updateUA_trace st env with hua | hua <;>
    cases hcon : st.connected <;>
    cases hc1 : env.connect1 <;>
    cases hf1 : env.fetch1 <;>
    cases hc2 : env.connect2 <;>
    cases hf2 : env.fetch2 <;>
    cases hcv : cacheValidInline now st.lastRefresh st.cacheTTL <;>
    simp_all [refreshCookies, ensureConnection, cacheFallback, finishRefresh]

/-- Witness for C8: with a live connection, a failing fetch, a successful
reconnect and a failing retry, the trace is exactly fetch, disconnect,
reconnect, fetch, disconnect — two fetch attempts, one reconnect, nothing
after the second disconnect. -/
theorem refresh_attempt_bounds_witness :
    (refreshCookies
      { connected := true, jar := [], userAgent := "", lastRefresh := 0,
        cacheTTL := 5 }
      { connect1 := true, fetch1 := FetchResult.error (GoErr.callError "a"),
        connect2 := true, fetch2 := FetchResult.error (GoErr.callError "b"),
        fetchUA := UAResult.ok "" } 100).trace
      = [Ev.fetchAttempt, Ev.disconnect, Ev.connectAttempt,
         Ev.fetchAttempt, Ev.disconnect] := by
  have h := (refresh_attempt_bounds
    { connected := true, jar := [], userAgent := "", lastRefresh := 0,
      cacheTTL := 5 }
    { connect1 := true, fetch1 := FetchResult.error (GoErr.callError "a"),
      connect2 := true, fetch2 := FetchResult.error (GoErr.callError "b"),
      fetchUA := UAResult.ok "" } 100).2.2
    (GoErr.callError "a") (GoErr.callError "b") rfl rfl rfl rfl
  simpa using h

/-- The read loop skips any prefix made of frames whose id differs from
the call's id. -/
theorem readLoop_append_skip (id : Int) (pre rest : List InMsg)
    (h : ∀ m ∈ pre, ∃ i e' r', m = InMsg.frame i e' r' ∧ i ≠ id) :
    readLoop id (pre ++ rest) = readLoop id rest := by
  induction pre with
  | nil => rfl
  | cons m pre' ih =>
      obtain ⟨i, e', r', hm, hne⟩ := h m (List.mem_cons_self m pre')
      subst hm
      rw [List.cons_append]
      have hstep : readLoop id (InMsg.frame i e' r' :: (pre' ++ rest))
          = readLoop id (pre' ++ rest) := by
        simp only [readLoop]
        rw [if_pos hne]
      rw [hstep]
      exact ih (fun m hm' => h m (List.mem_cons_of_mem _ hm'))

/-- C9: the protocol call with allocated id `nextID + 1` returns only upon
the first inbound frame bearing that id, discarding every preceding
non-matching frame; a matching frame with a remote error
yields a `CDP error` carrying that code and message, and a matching frame
with a result yields that result payload. -/
theorem execute_correlates_by_id (nextID : Int) (method : String)
    (ps : Option JVal) (pre rest : List InMsg) (er : Option (Int × String))
    (r : String)
    (hm : canMarshal (buildRequest (nextID + 1) method ps) = true)
    (hpre : ∀ m ∈ pre, ∃ i e' r', m = InMsg.frame i e' r' ∧ i ≠ nextID + 1) :
    executeFull nextID method ps true
        (pre ++ InMsg.frame (nextID + 1) er r :: rest)
      = ExecOutcome.res
          (match er with
           | some (c, m) => CallResult.errRemote c m
           | none => CallResult.ok r) := by
  simp only [executeFull, hm, Bool.not_true, Bool.false_eq_true, if_false,
    Bool.not_false, if_true]
  rw [readLoop_append_skip (nextID + 1) pre _ hpre]
  simp only [readLoop]
  rw [if_neg (by simp)]

/-- Witness for C9: with allocated id 1, an unsolicited event frame with
id 7 is skipped, and the matching frame's result payload is returned. -/
theorem execute_correlates_by_id_witness :
    executeFull 0 "Storage.getCookies" none true
        [InMsg.frame 7 none "event", InMsg.frame 1 none "cookiedata"]
      = ExecOutcome.res (CallResult.ok "cookiedata") :=
  execute_correlates_by_id 0 "Storage.getCookies" none
    [InMsg.frame 7 none "event"] [] none "cookiedata" (by decide)
    (by
      intro m hm
      simp only [List.mem_singleton] at hm
      exact ⟨7, none, "event", hm, by decide⟩)

/-- C10: when the cookie fetch succeeds but the identity fetch fails and
no identity was ever recorded, `RefreshCookies` still returns `nil`,
still installs the fetched records, still stamps `lastRefresh := now`,
and the identity stays empty — so `UserAgent()` returns `""` and the
adapter injects no user-agent header. -/
theorem refresh_tolerates_identity_failure (st : ClientState) (env : Env)
    (now : Nat) (cs : List Cookie) (e : GoErr)
    (hs : fetchOutcome st env = some cs)
    (hua : st.userAgent = "")
    (hf : env.fetchUA = UAResult.error e) :
    (refreshCookies st env now).err = none ∧
    (refreshCookies st env now).state.jar = setCookies st.jar cs ∧
    (refreshCookies st env now).state.lastRefresh = now ∧
    UserAgent (refreshCookies st env now).state = "" ∧
    ∀ hdr, setUserAgentHeader (UserAgent (refreshCookies st env now).state) hdr
      = hdr := by
  obtain ⟨herr, hstate⟩ := refresh_success st env now cs hs
  have huaAfter : (updateUA st env).1 = "" := by
    simp [updateUA, hua, hf]
  refine ⟨herr, by rw [hstate], by rw [hstate], ?_, ?_⟩
  · rw [UserAgent, hstate]
    exact huaAfter
  · intro hdr
    rw [UserAgent, hstate]
    show setUserAgentHeader (updateUA st env).1 hdr = hdr
    rw [huaAfter]
    simp [setUserAgentHeader]

/-- Witness for C10: cookies fetched, identity fetch failing, identity
never recorded: success, records installed, timestamp stamped, no
user-agent header injected. -/
theorem refresh_tolerates_identity_failure_witness :
    (refreshCookies
      { connected := true, jar := [], userAgent := "", lastRefresh := 0,
        cacheTTL := 5 }
      { connect1 := true,
        fetch1 := FetchResult.ok
          [{ name := "y", value := "b", domain := "httpbin.org", path := "/",
             size := 3, httpOnly := false, secure := true, session := false,
             sourcePort := 443, partitionKeyOpaque := false }],
        connect2 := true, fetch2 := FetchResult.ok [],
        fetchUA := UAResult.error (GoErr.callError "failed to get browser version") }
      100).err = none ∧
    setUserAgentHeader
      (UserAgent
        (refreshCookies
          { connected := true, jar := [], userAgent := "", lastRefresh := 0,
            cacheTTL := 5 }
          { connect1 := true,
            fetch1 := FetchResult.ok
              [{ name := "y", value := "b", domain := "httpbin.org", path := "/",
                 size := 3, httpOnly := false, secure := true, session := false,
                 sourcePort := 443, partitionKeyOpaque := false }],
            connect2 := true, fetch2 := FetchResult.ok [],
            fetchUA := UAResult.error (GoErr.callError "failed to get browser version") }
          100).state)
      [("Accept", "*")] = [("Accept", "*")] := by
  have h := refresh_tolerates_identity_failure
    { connected := true, jar := [], userAgent := "", lastRefresh := 0,
      cacheTTL := 5 }
    { connect1 := true,
      fetch1 := FetchResult.ok
        [{ name := "y", value := "b", domain := "httpbin.org", path := "/",
           size := 3, httpOnly := false, secure := true, session := false,
           sourcePort := 443, partitionKeyOpaque := false }],
      connect2 := true, fetch2 := FetchResult.ok [],
      fetchUA := UAResult.error (GoErr.callError "failed to get browser version") }
    100
    [{ name := "y", value := "b", domain := "httpbin.org", path := "/",
       size := 3, httpOnly := false, secure := true, session := false,
       sourcePort := 443, partitionKeyOpaque := false }]
    (GoErr.callError "failed to get browser version")
    (by decide) rfl rfl
  exact ⟨h.1, h.2.2.2.2 [("Accept", "*")]⟩

end CdpHttp
